import Mathlib

/-!
Verification of the Indo-China trade-dashboard core pipeline against its
natural-language specification.

The definitions below are a shallow embedding of the JavaScript sources:

* `assets/services/wits.js`       — `QueryPlanner.validate` / `QueryPlanner.chunk`,
                                    `normaliseWitsResponse`, `extractObservations`, `mapFlow`
* `assets/services/fetchers.js`   — `robustFetch` (retry / backoff / cache / error classification)
* `assets/services/cache.js`      — two-tier TTL cache (`get` / `set` / `fingerprint`)
* `assets/services/errors.js`     — the error taxonomy (`AppError` subclasses)
* `assets/services/validators.js` — `validateTradeFact` / `validateMacroFact`
* `assets/workers/models.js`      — `seasonalNaive`, `holtWinters`, `rollingEval`,
                                    `calcRMSE`, `calcMAPE`

JavaScript numbers are modelled as `ℚ` (exact arithmetic; the claims checked
here are algebraic or structural, not about float rounding), JSON values as
the inductive `J`, absent object fields as `Option J = none`, and the
asynchronous retry loop as a pure recursion over a response oracle
`Nat → NetEvent` indexed by the attempt number, threading explicit counters
for issued network calls and backoff sleeps.
-/

namespace IndoChina

/-! ## JSON values and JavaScript primitives -/

/-- A JSON-ish JavaScript value. `none : Option J` stands for `undefined`
(an absent property). -/
inductive J : Type where
  | jnull : J
  | jbool : Bool → J
  | jnum : ℚ → J
  | jstr : String → J
  | jarr : List J → J
  | jobj : List (String × J) → J

/-- Property access `o[k]` on a JavaScript value: defined (first binding) only
for objects, `undefined` otherwise. -/
def jGet (v : J) (k : String) : Option J :=
  match v with
  | .jobj l => (l.find? (fun p => p.1 == k)).map (fun p => p.2)
  | _ => none

/-- JavaScript truthiness of a possibly-undefined value: `undefined`, `null`,
`false`, `0`, and `""` are falsy; objects and arrays (even empty) are truthy. -/
def truthyJ : Option J → Bool
  | none => false
  | some .jnull => false
  | some (.jbool b) => b
  | some (.jnum q) => q != 0
  | some (.jstr s) => s != ""
  | some (.jarr _) => true
  | some (.jobj _) => true

/-- `a || b` at the value level: the first operand when truthy, else the second. -/
def jsOrJ (a : Option J) (b : J) : J :=
  if truthyJ a then a.getD b else b

/-- `Object.values(x)`: field values of an object, elements of an array,
empty for primitives. -/
def jObjectValues : J → List J
  | .jobj l => l.map (fun p => p.2)
  | .jarr l => l
  | _ => []

/-- `typeof x === 'object'` (objects and `null`; arrays are matched earlier
at every use site in the embedded code). -/
def isObjLike : J → Bool
  | .jobj _ => true
  | .jnull => true
  | _ => false

/-- `String.prototype.includes` (substring containment). -/
def jsIncludes (s sub : String) : Bool :=
  decide (sub.toList <:+: s.toList)

/-- `String.prototype.toLowerCase` (ASCII; defined over the character list so
it reduces in proofs, unlike core `String.toLower`). -/
def jsToLowerCase (s : String) : String := ⟨s.data.map Char.toLower⟩

/-- `String.prototype.toUpperCase` (ASCII). -/
def jsToUpperCase (s : String) : String := ⟨s.data.map Char.toUpper⟩

/-! ### `parseFloat`

A model of the JavaScript `parseFloat` builtin on strings: skip leading
whitespace, optional sign, decimal digits, optional fraction, optional
exponent; `none` models `NaN` (no parsable prefix). -/

/-- Interpret a digit run as a natural number (most significant first). -/
def digitsToNat (ds : List Char) : Nat :=
  ds.foldl (fun acc c => acc * 10 + (c.toNat - '0'.toNat)) 0

/-- Parse an optional exponent suffix `e[±]digits`; returns the exponent
(default 0, matching `parseFloat` which ignores a malformed suffix). -/
def parseExp (cs : List Char) : Int :=
  match cs with
  | 'e' :: rest | 'E' :: rest =>
    let (sign, rest2) : Int × List Char :=
      match rest with
      | '-' :: r => (-1, r)
      | '+' :: r => (1, r)
      | r => (1, r)
    let ds := rest2.takeWhile Char.isDigit
    if ds.isEmpty then 0 else sign * (digitsToNat ds : Int)
  | _ => 0

/-- `parseFloat` on a string: `some q` on success, `none` for `NaN`. -/
def jsParseFloat (s : String) : Option ℚ :=
  let cs := s.toList.dropWhile (fun c => c = ' ' ∨ c = '\t' ∨ c = '\n' ∨ c = '\r')
  let (sign, cs1) : ℚ × List Char :=
    match cs with
    | '-' :: r => (-1, r)
    | '+' :: r => (1, r)
    | r => (1, r)
  let intDs := cs1.takeWhile Char.isDigit
  let cs2 := cs1.dropWhile Char.isDigit
  let (fracDs, cs3) : List Char × List Char :=
    match cs2 with
    | '.' :: r => (r.takeWhile Char.isDigit, r.dropWhile Char.isDigit)
    | r => ([], r)
  if intDs.isEmpty ∧ fracDs.isEmpty then none
  else
    let mantissa : ℚ :=
      (digitsToNat intDs : ℚ) + (digitsToNat fracDs : ℚ) / ((10 : ℚ) ^ fracDs.length)
    let e := parseExp cs3
    some (sign * mantissa * (10 : ℚ) ^ e)

/-- `parseFloat(x)` on a JavaScript value: numbers pass through, strings are
parsed; other values stringify to something unparsable (`NaN`). -/
def jsParseFloatJ (v : Option J) : Option ℚ :=
  match v with
  | some (.jnum q) => some q
  | some (.jstr s) => jsParseFloat s
  | _ => none

/-! ## Query Planner (`assets/services/wits.js`, `QueryPlanner`) -/

/-- The fixed WITS query parameters (each a string; the wildcard is any
case variant of `"all"`). -/
structure WitsParams where
  reporter : String
  year : String
  partner : String
  product : String
  indicator : String
deriving DecidableEq

/-- `QueryPlanner.DIMS`. -/
def DIMS : List String := ["reporter", "year", "partner", "product", "indicator"]

/-- `params[d]` for a dimension name (only ever applied to members of `DIMS`). -/
def getDim (p : WitsParams) : String → String
  | "reporter" => p.reporter
  | "year" => p.year
  | "partner" => p.partner
  | "product" => p.product
  | "indicator" => p.indicator
  | _ => "undefined"

/-- `String(params[d]).toLowerCase() === 'all'`. -/
def isAll (s : String) : Bool := jsToLowerCase s == "all"

/-- Result of `QueryPlanner.validate`: `{ valid, reason }`. -/
structure VResult where
  valid : Bool
  reason : String
deriving DecidableEq

/-- `QueryPlanner.validate(params)`: at most 2 wildcarded dimensions,
`reporter`/`partner` never both wildcarded, and (when exactly 2 are
wildcarded) all remaining dimensions specific. -/
def validate (p : WitsParams) : VResult :=
  let allDims := DIMS.filter (fun d => isAll (getDim p d))
  if allDims.length > 2 then
    ⟨false, toString allDims.length ++ " dimensions set to ALL; max 2 allowed."⟩
  else if allDims.contains "reporter" && allDims.contains "partner" then
    ⟨false, "reporter=ALL + partner=ALL is not allowed."⟩
  else if allDims.length == 2 then
    match (DIMS.filter (fun d => !allDims.contains d)).find?
        (fun sd => isAll (getDim p sd)) with
    | some sd => ⟨false, "When 2 dims are ALL, " ++ sd ++ " must be specific."⟩
    | none => ⟨true, ""⟩
  else ⟨true, ""⟩

/-- One planned sub-query (`{ datasource, params }`). -/
structure SubQuery where
  datasource : String
  params : WitsParams
deriving DecidableEq

/-- The year sequence visited by `chunk`'s nested loops
(`for (let y = lo; y <= hi; y += 5) for (let yr = y; yr <= endY; yr++)`),
driven by explicit fuel; `chunkYears` supplies sufficient fuel. -/
def chunkYearsF : Nat → Int → Int → List Int
  | 0, _, _ => []
  | fuel + 1, y, hi =>
    if y ≤ hi then
      (let endY := min (y + 4) hi
       (List.range ((endY - y).toNat + 1)).map (fun i => y + i))
        ++ chunkYearsF fuel (y + 5) hi
    else []

/-- All years enumerated by `chunk` over `[lo, hi]`. -/
def chunkYears (lo hi : Int) : List Int :=
  chunkYearsF (hi + 1 - lo).toNat lo hi

/-- `QueryPlanner.chunk(datasource, params, yearRange)`. A `WitsLimitError`
is modelled as `Except.error` carrying the thrown error's detail string
(the original validation failure reason). -/
def chunk (datasource : String) (p : WitsParams) (lo hi : Int) :
    Except String (List SubQuery) :=
  let check := validate p
  if check.valid then .ok [⟨datasource, p⟩]
  else
    let chunks := (chunkYears lo hi).filterMap (fun yr =>
      let p2 := { p with year := toString yr }
      if (validate p2).valid then some (⟨datasource, p2⟩ : SubQuery) else none)
    if chunks.isEmpty then .error check.reason else .ok chunks

/-! ### Planner lemmas and claim theorems -/

/-- A query wildcarding both `reporter` and `partner` never validates,
whatever the other dimensions are. -/
theorem validate_false_of_reporter_partner_all (p : WitsParams)
    (hr : isAll p.reporter = true) (hp : isAll p.partner = true) :
    (validate p).valid = false := by
  unfold validate
  cases hy : isAll p.year <;> cases hpr : isAll p.product <;>
    cases hi : isAll p.indicator <;>
      simp [DIMS, getDim, hr, hp, hy, hpr, hi]

/-- A query with at most 2 wildcarded dimensions, not both `reporter` and
`partner`, validates. -/
theorem validate_true_of_legal (p : WitsParams)
    (hcount : (DIMS.filter (fun d => isAll (getDim p d))).length ≤ 2)
    (hnotboth : ¬(isAll p.reporter = true ∧ isAll p.partner = true)) :
    (validate p).valid = true := by
  unfold validate
  cases h1 : isAll p.reporter <;> cases h2 : isAll p.year <;>
    cases h3 : isAll p.partner <;> cases h4 : isAll p.product <;>
      cases h5 : isAll p.indicator <;>
        simp_all [DIMS, getDim]

/-- C1 (counterexample): on the concrete query
`reporter=all, partner=all, year=all, product=TOTAL, indicator=MPRT-TRD-VL`
with year range 2000–2002, `QueryPlanner.chunk` does NOT return a plan of
per-year legal sub-queries: every per-year substitution still wildcards both
`reporter` and `partner`, so all sub-queries are discarded and a
`WitsLimitError` carrying the original violation reason is thrown. -/
theorem chunk_all_all_all_counterexample :
    chunk "trn" ⟨"all", "all", "all", "TOTAL", "MPRT-TRD-VL"⟩ 2000 2002
      = .error "3 dimensions set to ALL; max 2 allowed." := by
  rfl

/-- C1 (amended): for every query with `reporter=all`, `partner=all` and
`year=all`, `QueryPlanner.chunk` fails with a `WitsLimitError` carrying the
original violation reason, for any year range: per-year substitution cannot
legalize a query that wildcards both `reporter` and `partner`, so no plan is
produced. -/
theorem chunk_all_all_all_fails (ds : String) (p : WitsParams) (lo hi : Int)
    (hr : isAll p.reporter = true) (_hy : isAll p.year = true)
    (hp : isAll p.partner = true) :
    chunk ds p lo hi = .error (validate p).reason := by
  have hv := validate_false_of_reporter_partner_all p hr hp
  unfold chunk
  simp only [hv, Bool.false_eq_true, if_false]
  have hnil : (chunkYears lo hi).filterMap (fun yr =>
      let p2 := { p with year := toString yr }
      if (validate p2).valid then some (⟨ds, p2⟩ : SubQuery) else none) = [] := by
    refine List.filterMap_eq_nil_iff.mpr (fun yr _ => ?_)
    have h2 : (validate { p with year := toString yr }).valid = false :=
      validate_false_of_reporter_partner_all _ hr hp
    simp [h2]
  simp [hnil]

/-- C1 (witness for the amended theorem). -/
theorem chunk_all_all_all_fails_witness :
    isAll "all" = true ∧
      chunk "tradestats-trade" ⟨"all", "all", "all", "TOTAL", "XPRT-TRD-VL"⟩ 1990 2004
        = .error (validate ⟨"all", "all", "all", "TOTAL", "XPRT-TRD-VL"⟩).reason :=
  ⟨by decide, chunk_all_all_all_fails "tradestats-trade"
    ⟨"all", "all", "all", "TOTAL", "XPRT-TRD-VL"⟩ 1990 2004
    (by decide) (by decide) (by decide)⟩

/-- C4: every query in which at most 2 of the 5 dimensions are wildcarded
and `reporter`, `partner` are not both wildcarded is valid as-is, and
`QueryPlanner.chunk` returns it unchanged as a single-element plan. -/
theorem chunk_legal_returns_singleton (ds : String) (p : WitsParams) (lo hi : Int)
    (hcount : (DIMS.filter (fun d => isAll (getDim p d))).length ≤ 2)
    (hnotboth : ¬(isAll p.reporter = true ∧ isAll p.partner = true)) :
    chunk ds p lo hi = .ok [⟨ds, p⟩] := by
  have hv := validate_true_of_legal p hcount hnotboth
  unfold chunk
  simp [hv]

/-- C4 (witness): a concrete query with exactly 2 wildcards
(`year=all, product=all`) passes through `chunk` unchanged. -/
theorem chunk_legal_returns_singleton_witness :
    (DIMS.filter (fun d =>
        isAll (getDim ⟨"IND", "all", "CHN", "all", "MPRT-TRD-VL"⟩ d))).length ≤ 2 ∧
      ¬(isAll "IND" = true ∧ isAll "CHN" = true) ∧
      chunk "trn" ⟨"IND", "all", "CHN", "all", "MPRT-TRD-VL"⟩ 2000 2024
        = .ok [⟨"trn", ⟨"IND", "all", "CHN", "all", "MPRT-TRD-VL"⟩⟩] :=
  ⟨by decide, by decide,
    chunk_legal_returns_singleton "trn" ⟨"IND", "all", "CHN", "all", "MPRT-TRD-VL"⟩
      2000 2024 (by decide) (by decide)⟩

/-! ## Error taxonomy (`assets/services/errors.js`) -/

/-- The observable metadata of an `AppError` subclass instance: class name,
`code`, `recoverable`, `retryable`, plus the HTTP status a `ServerError`
carries. -/
structure AppErr where
  name : String
  code : String
  recoverable : Bool
  retryable : Bool
  status : Option Nat := none
deriving DecidableEq

/-- `new NetworkError(msg, opts)`: defaults `recoverable: true,
retryable: true`; `opts` may override `retryable` (as the 4xx site does). -/
def networkError (retryable : Bool) : AppErr :=
  ⟨"NetworkError", "NETWORK", true, retryable, none⟩

/-- `new CorsError(source)`: recoverable, not retryable. -/
def corsError : AppErr := ⟨"CorsError", "CORS", true, false, none⟩

/-- `new RateLimitError(source, retryAfter)`: recoverable, retryable. -/
def rateLimitError : AppErr := ⟨"RateLimitError", "RATE_LIMIT", true, true, none⟩

/-- `new ServerError(source, status)`: recoverable, retryable. -/
def serverError (status : Nat) : AppErr :=
  ⟨"ServerError", "SERVER_ERROR", true, true, some status⟩

/-- `new PayloadTooLargeError(source)`: recoverable, not retryable. -/
def payloadTooLargeError : AppErr :=
  ⟨"PayloadTooLargeError", "PAYLOAD_TOO_LARGE", true, false, none⟩

/-! ## Cache Store (`assets/services/cache.js`) -/

/-- A cache entry `{ value, expires }` (payloads modelled as strings). -/
structure CacheEntry where
  value : String
  expires : Int
deriving DecidableEq

/-- The two cache tiers: the in-memory `Map` and `sessionStorage`
(the `cache:` prefix is implicit; the session tier stores the same
JSON-serializable entries). -/
structure CacheStore where
  mem : List (String × CacheEntry)
  session : List (String × CacheEntry)
deriving DecidableEq

/-- The empty store (fresh process). -/
def CacheStore.empty : CacheStore := ⟨[], []⟩

/-- Association-list lookup (JS `Map.get` / `sessionStorage.getItem`). -/
def alistGet (l : List (String × CacheEntry)) (k : String) : Option CacheEntry :=
  (l.find? (fun p => p.1 == k)).map (fun p => p.2)

/-- Association-list insert-or-replace (JS `Map.set` / `setItem`). -/
def alistSet (l : List (String × CacheEntry)) (k : String) (e : CacheEntry) :
    List (String × CacheEntry) :=
  (k, e) :: l.filter (fun p => p.1 != k)

/-- Association-list removal (`Map.delete` / `removeItem`). -/
def alistDel (l : List (String × CacheEntry)) (k : String) :
    List (String × CacheEntry) :=
  l.filter (fun p => p.1 != k)

/-- `fingerprint(url, params)` with `params` omitted:
`` `${url}|${JSON.stringify({})}` ``. -/
def fingerprint (url : String) : String := url ++ "|\x7b\x7d"

/-- `cache.get(key)` at clock time `now`: memory tier first (hit only while
unexpired), then the session tier (an unexpired session hit is promoted to
memory; an expired session entry is removed); returns the possibly-updated
store alongside the value. -/
def cacheGet (st : CacheStore) (now : Int) (key : String) :
    Option String × CacheStore :=
  let sessionPath : Option String × CacheStore :=
    match alistGet st.session key with
    | some e =>
      if now < e.expires then
        (some e.value, { st with mem := alistSet st.mem key e })
      else
        (none, { st with session := alistDel st.session key })
    | none => (none, st)
  match alistGet st.mem key with
  | some e => if now < e.expires then (some e.value, st) else sessionPath
  | none => sessionPath

/-- `cache.set(key, value, ttlMs)` at clock time `now`: writes
`{ value, expires: now + ttl }` to both tiers. -/
def cacheSet (st : CacheStore) (now : Int) (key : String) (value : String)
    (ttl : Int) : CacheStore :=
  let e : CacheEntry := ⟨value, now + ttl⟩
  ⟨alistSet st.mem key e, alistSet st.session key e⟩

/-! ## Request Executor (`assets/services/fetchers.js`, `robustFetch`)

The network is an oracle `Nat → NetEvent` giving the outcome `fetch(url)`
would produce on each attempt number. `robustFetch` is the pure unfolding of
the retry loop, threading the cache store and counters for issued network
calls (`fetch` invocations) and backoff sleeps (`await sleep(...)`). Backoff
durations (`base * 2^attempt + jitter`, or `Retry-After`) affect only how
long each sleep lasts, never the control flow, so only the count is kept. -/

/-- One outcome of `fetch(url)`: an HTTP response (status, parsed
`Retry-After` header, optional `content-length`, payload), or a transport
failure (`TypeError: Failed to fetch`) with the `navigator.onLine` flag. -/
inductive NetEvent where
  | http (status : Nat) (retryAfter : Nat) (contentLength : Option Nat)
      (payload : String)
  | transportFail (online : Bool)
deriving DecidableEq

/-- `MAX_PAYLOAD_BYTES = 10 * 1024 * 1024`. -/
def MAX_PAYLOAD_BYTES : Nat := 10 * 1024 * 1024

/-- What one `robustFetch` invocation did: its result, the number of
`fetch` calls issued, the number of backoff sleeps awaited, and the cache
store afterwards. -/
structure FetchOutcome where
  result : Except AppErr String
  fetches : Nat
  sleeps : Nat
  cache : CacheStore

/-- The body of `for (let attempt = 0; attempt <= maxRetries; attempt++)`,
with `fuel = maxRetries + 1 - attempt` remaining iterations; when the loop
exhausts, `throw lastErr`. -/
def fetchLoop (net : Nat → NetEvent) (maxRetries : Nat) (key : String)
    (ttl : Int) (now : Int) (st : CacheStore) :
    Nat → Nat → Option AppErr → Nat → Nat → FetchOutcome
  | _attempt, 0, lastErr, fetches, sleeps =>
    -- loop condition failed: `throw lastErr` (always set: the loop body ran
    -- at least once, since the initial fuel is `maxRetries + 1 ≥ 1`)
    ⟨.error (lastErr.getD (networkError true)), fetches, sleeps, st⟩
  | attempt, fuel + 1, _lastErr, fetches, sleeps =>
    match net attempt with
    | .http status _retryAfter contentLength payload =>
      if status == 429 then
        -- RateLimit: log, sleep (Retry-After if positive, else backoff), continue
        fetchLoop net maxRetries key ttl now st (attempt + 1) fuel
          (some rateLimitError) (fetches + 1) (sleeps + 1)
      else if status ≥ 500 then
        -- ServerError: log, backoff sleep, continue
        fetchLoop net maxRetries key ttl now st (attempt + 1) fuel
          (some (serverError status)) (fetches + 1) (sleeps + 1)
      else if status < 200 ∨ 299 < status then
        -- !resp.ok: 4xx (except 429) throws a non-retryable NetworkError,
        -- which the catch block rethrows immediately (no sleep, no retry)
        ⟨.error (networkError false), fetches + 1, sleeps, st⟩
      else if contentLength.getD 0 > MAX_PAYLOAD_BYTES then
        -- payload guard throws; the catch block rethrows PayloadTooLargeError
        ⟨.error payloadTooLargeError, fetches + 1, sleeps, st⟩
      else
        -- success: parse, store in cache with the descriptor's TTL, return
        ⟨.ok payload, fetches + 1, sleeps, cacheSet st now key payload ttl⟩
    | .transportFail online =>
      -- TypeError 'Failed to fetch': classify by navigator.onLine and throw
      -- immediately (`throw lastErr; // no retry for CORS`)
      let e := if online then corsError else networkError true
      ⟨.error e, fetches + 1, sleeps, st⟩

/-- `robustFetch(url, { cacheTtlMs, maxRetries, responseType })`: consult the
cache first (immediate return, no fetch, no retry accounting), otherwise run
the retry loop. -/
def robustFetch (net : Nat → NetEvent) (url : String) (ttl : Int)
    (maxRetries : Nat) (st : CacheStore) (now : Int) : FetchOutcome :=
  let key := fingerprint url
  match cacheGet st now key with
  | (some v, st2) => ⟨.ok v, 0, 0, st2⟩
  | (none, st2) => fetchLoop net maxRetries key ttl now st2 0 (maxRetries + 1) none 0 0

/-! ### Request Executor claim theorems -/

/-- Response sequence `[429, 429, 200]`: two rate-limited attempts, then success. -/
def netTwo429ThenOk : Nat → NetEvent := fun a =>
  if a < 2 then .http 429 0 none "" else .http 200 0 none "WITS-PAYLOAD"

/-- Response sequence of unbroken 500s. -/
def netAll500 : Nat → NetEvent := fun _ => .http 500 0 none ""

/-- C2: with `maxRetries = 3` and a cold cache, responses `[429, 429, 200]`
make `robustFetch` return the 200 payload after exactly 2 backoff sleeps
(3 fetches); responses `[500, 500, 500, 500]` exhaust all 4 loop iterations
and surface the last `ServerError` (recoverable, retryable, status 500). -/
theorem robustFetch_retry_sequences :
    (robustFetch netTwo429ThenOk "https://wits.example/a" 60000 3
        CacheStore.empty 0).result = .ok "WITS-PAYLOAD" ∧
    (robustFetch netTwo429ThenOk "https://wits.example/a" 60000 3
        CacheStore.empty 0).sleeps = 2 ∧
    (robustFetch netTwo429ThenOk "https://wits.example/a" 60000 3
        CacheStore.empty 0).fetches = 3 ∧
    (robustFetch netAll500 "https://wits.example/b" 60000 3
        CacheStore.empty 0).result = .error (serverError 500) ∧
    (robustFetch netAll500 "https://wits.example/b" 60000 3
        CacheStore.empty 0).fetches = 4 ∧
    (serverError 500).name = "ServerError" :=
  ⟨rfl, rfl, rfl, rfl, rfl, rfl⟩

/-- Whenever the retry loop returns a payload, the cache it leaves behind is
exactly the starting store with that payload written under the request key
(the loop body never touches the store except on the success return). -/
theorem fetchLoop_ok_cache (net : Nat → NetEvent) (mr : Nat) (key : String)
    (ttl now : Int) (v : String) :
    ∀ (fuel attempt : Nat) (st : CacheStore) (lastErr : Option AppErr)
      (fetches sleeps : Nat),
      (fetchLoop net mr key ttl now st attempt fuel lastErr fetches sleeps).result
          = .ok v →
      (fetchLoop net mr key ttl now st attempt fuel lastErr fetches sleeps).cache
          = cacheSet st now key v ttl := by
  intro fuel
  induction fuel with
  | zero =>
    intro attempt st lastErr fetches sleeps h
    simp [fetchLoop] at h
  | succ n ih =>
    intro attempt st lastErr fetches sleeps h
    cases hnet : net attempt with
    | http status ra cl payload =>
      simp only [fetchLoop, hnet] at h ⊢
      by_cases h429 : (status == 429) = true
      · rw [if_pos h429] at h ⊢
        exact ih _ _ _ _ _ h
      · rw [if_neg h429] at h ⊢
        by_cases h5xx : status ≥ 500
        · rw [if_pos h5xx] at h ⊢
          exact ih _ _ _ _ _ h
        · rw [if_neg h5xx] at h ⊢
          by_cases hko : status < 200 ∨ 299 < status
          · rw [if_pos hko] at h
            simp at h
          · rw [if_neg hko] at h ⊢
            by_cases hcl : cl.getD 0 > MAX_PAYLOAD_BYTES
            · rw [if_pos hcl] at h
              simp at h
            · rw [if_neg hcl] at h ⊢
              obtain rfl : payload = v := by simpa using h
              rfl
    | transportFail online =>
      simp only [fetchLoop, hnet] at h
      simp at h

/-- C3 (amended): whenever a first call on a cold cache succeeds — on its
first attempt or after retries — the cache entry it wrote makes a second
call with the same descriptor inside the TTL window return the cached
payload with zero fetch attempts and zero sleeps (whatever the network would
do), so the total network-call count is exactly the first call's; in
particular it is exactly one when the first call succeeded on its first
attempt (one fetch). -/
theorem robustFetch_cache_second_call_free
    (url payload : String) (ttl t0 t1 : Int) (mr mr2 : Nat)
    (net net2 : Nat → NetEvent)
    (hsucc : (robustFetch net url ttl mr CacheStore.empty t0).result = .ok payload)
    (hfresh : t1 < t0 + ttl) :
    (robustFetch net2 url ttl mr2
        (robustFetch net url ttl mr CacheStore.empty t0).cache t1).result
      = .ok payload ∧
    (robustFetch net2 url ttl mr2
        (robustFetch net url ttl mr CacheStore.empty t0).cache t1).fetches = 0 ∧
    (robustFetch net2 url ttl mr2
        (robustFetch net url ttl mr CacheStore.empty t0).cache t1).sleeps = 0 ∧
    (robustFetch net url ttl mr CacheStore.empty t0).fetches
        + (robustFetch net2 url ttl mr2
            (robustFetch net url ttl mr CacheStore.empty t0).cache t1).fetches
      = (robustFetch net url ttl mr CacheStore.empty t0).fetches ∧
    ((robustFetch net url ttl mr CacheStore.empty t0).fetches = 1 →
      (robustFetch net url ttl mr CacheStore.empty t0).fetches
          + (robustFetch net2 url ttl mr2
              (robustFetch net url ttl mr CacheStore.empty t0).cache t1).fetches
        = 1) := by
  have hr1 : robustFetch net url ttl mr CacheStore.empty t0 =
      fetchLoop net mr (fingerprint url) ttl t0 CacheStore.empty 0 (mr + 1)
        none 0 0 := rfl
  have hcache : (robustFetch net url ttl mr CacheStore.empty t0).cache =
      cacheSet CacheStore.empty t0 (fingerprint url) payload ttl := by
    rw [hr1]
    exact fetchLoop_ok_cache net mr (fingerprint url) ttl t0 payload
      (mr + 1) 0 CacheStore.empty none 0 0 (hr1 ▸ hsucc)
  have h2 : robustFetch net2 url ttl mr2
      (cacheSet CacheStore.empty t0 (fingerprint url) payload ttl) t1 =
      ⟨.ok payload, 0, 0,
        cacheSet CacheStore.empty t0 (fingerprint url) payload ttl⟩ := by
    unfold robustFetch cacheGet cacheSet alistGet alistSet CacheStore.empty
    simp [hfresh]
  rw [hcache, h2]
  exact ⟨rfl, rfl, rfl, Nat.add_zero _, fun h => by rw [Nat.add_zero, h]⟩

/-- C3 (witness for the amended theorem): a first call that succeeds only
after two 429 retries still leaves the second call fetch-free. -/
theorem robustFetch_cache_second_call_free_witness :
    (robustFetch netTwo429ThenOk "https://wb.example/gdp" 60000 3
        CacheStore.empty 0).result = .ok "WITS-PAYLOAD" ∧
    (500 : Int) < 0 + 60000 ∧
    (robustFetch netAll500 "https://wb.example/gdp" 60000 3
        (robustFetch netTwo429ThenOk "https://wb.example/gdp" 60000 3
          CacheStore.empty 0).cache 500).result = .ok "WITS-PAYLOAD" ∧
    (robustFetch netAll500 "https://wb.example/gdp" 60000 3
        (robustFetch netTwo429ThenOk "https://wb.example/gdp" 60000 3
          CacheStore.empty 0).cache 500).fetches = 0 := by
  refine ⟨rfl, by decide, ?_, ?_⟩
  · exact (robustFetch_cache_second_call_free "https://wb.example/gdp"
      "WITS-PAYLOAD" 60000 0 500 3 3 netTwo429ThenOk netAll500 rfl (by decide)).1
  · exact (robustFetch_cache_second_call_free "https://wb.example/gdp"
      "WITS-PAYLOAD" 60000 0 500 3 3 netTwo429ThenOk netAll500 rfl (by decide)).2.1

/-- A single 429 then success: the first call succeeds but issues 2 fetches. -/
def netOne429ThenOk : Nat → NetEvent := fun a =>
  if a = 0 then .http 429 0 none "" else .http 200 0 none "P"

/-- C3 (counterexample): the claim's "exactly one network call is issued in
total" is false when the first (successful) call needed a retry: with
responses `[429, 200]` the first call succeeds (and the second call is served
from cache with no fetch), yet 2 network calls were issued in total. -/
theorem robustFetch_cache_total_calls_counterexample :
    (robustFetch netOne429ThenOk "https://wits.example/c" 60000 3
        CacheStore.empty 0).result = .ok "P" ∧
    (robustFetch netAll500 "https://wits.example/c" 60000 3
        (robustFetch netOne429ThenOk "https://wits.example/c" 60000 3
          CacheStore.empty 0).cache 1).result = .ok "P" ∧
    (robustFetch netAll500 "https://wits.example/c" 60000 3
        (robustFetch netOne429ThenOk "https://wits.example/c" 60000 3
          CacheStore.empty 0).cache 1).fetches = 0 ∧
    (robustFetch netOne429ThenOk "https://wits.example/c" 60000 3
          CacheStore.empty 0).fetches
      + (robustFetch netAll500 "https://wits.example/c" 60000 3
          (robustFetch netOne429ThenOk "https://wits.example/c" 60000 3
            CacheStore.empty 0).cache 1).fetches = 2 :=
  ⟨rfl, rfl, rfl, rfl⟩

/-- C5 (amended): every HTTP 4xx response other than 429 makes `robustFetch`
abort on that attempt — one fetch, no sleeps, no retries — surfacing the
thrown `NetworkError` (code `NETWORK`) with `retryable = false` and
`recoverable = true`. -/
theorem robustFetch_4xx_aborts_immediately (status : Nat)
    (h400 : 400 ≤ status) (h499 : status ≤ 499) (h429 : status ≠ 429)
    (url payload : String) (ttl now : Int) (mr : Nat)
    (net : Nat → NetEvent) (ra : Nat) (cl : Option Nat)
    (hnet : net 0 = .http status ra cl payload) :
    robustFetch net url ttl mr CacheStore.empty now =
      ⟨.error (networkError false), 1, 0, CacheStore.empty⟩ ∧
    (networkError false).name = "NetworkError" ∧
    (networkError false).retryable = false ∧
    (networkError false).recoverable = true := by
  refine ⟨?_, rfl, rfl, rfl⟩
  unfold robustFetch cacheGet alistGet CacheStore.empty
  simp only [List.find?_nil, Option.map_none]
  unfold fetchLoop
  rw [hnet]
  have hb : (status == 429) = false := by simp [h429]
  have h5 : ¬ (500 ≤ status) := by omega
  have hok : status < 200 ∨ 299 < status := by omega
  simp [hb, h5, hok]

/-- C5 (witness for the amended theorem, at status 418). -/
theorem robustFetch_4xx_aborts_immediately_witness :
    (400 ≤ 418 ∧ 418 ≤ 499 ∧ 418 ≠ 429) ∧
    robustFetch (fun _ => .http 418 0 none "teapot") "https://wits.example/d"
        60000 3 CacheStore.empty 0 =
      ⟨.error (networkError false), 1, 0, CacheStore.empty⟩ :=
  ⟨⟨by decide, by decide, by decide⟩,
    (robustFetch_4xx_aborts_immediately 418 (by decide) (by decide) (by decide)
      "https://wits.example/d" "teapot" 60000 0 3
      (fun _ => .http 418 0 none "teapot") 0 none rfl).1⟩

/-- C5 (counterexample): on a 404 the surfaced error is a `NetworkError`
whose `recoverable` flag is `true` — not a `ClientError` with
`recoverable = no` as the claim states (no `ClientError` class exists in the
code's taxonomy). -/
theorem robustFetch_404_not_clienterror :
    (robustFetch (fun _ => .http 404 0 none "") "https://wits.example/e"
        60000 3 CacheStore.empty 0).result = .error (networkError false) ∧
    (networkError false).name = "NetworkError" ∧
    (networkError false).recoverable = true :=
  ⟨rfl, rfl, rfl⟩

/-! ## Validator (`assets/services/validators.js`) -/

/-- A record as the validators see it: a map from field name to JavaScript
value, `none` for an absent field. -/
def Row : Type := String → Option J

/-- `TRADE_FACT_REQUIRED`. -/
def TRADE_FACT_REQUIRED : List String :=
  ["date", "frequency", "reporter_iso3", "partner_iso3", "flow",
   "product_level", "product_code", "value_usd", "source_id",
   "retrieval_ts", "request_fingerprint"]

/-- `MACRO_FACT_REQUIRED`. -/
def MACRO_FACT_REQUIRED : List String :=
  ["date", "country_iso3", "indicator_code", "indicator_name", "value",
   "unit", "source_id", "retrieval_ts", "request_fingerprint"]

def VALID_FREQUENCIES : List String := ["A", "M"]
def VALID_FLOWS : List String := ["IMPORT", "EXPORT"]
def VALID_PRODUCT_LEVELS : List String := ["TOTAL", "GROUP", "HS2", "HS4"]

/-- `row[field] === undefined || row[field] === ''`. -/
def isMissingJ : Option J → Bool
  | none => true
  | some (.jstr s) => s == ""
  | _ => false

/-- `row[field] === null`. -/
def isNullJ : Option J → Bool
  | some .jnull => true
  | _ => false

/-- `list.includes(v)` for a list of strings against a JavaScript value
(strict equality: only an identical string matches). -/
def strIncludes (l : List String) : Option J → Bool
  | some (.jstr s) => l.contains s
  | _ => false

/-- `v.length !== 3` after a truthiness guard: strings and arrays have a
`length`; any other truthy value gives `undefined !== 3`, i.e. a violation. -/
def lengthIsNot3 : Option J → Bool
  | some (.jstr s) => s.length != 3
  | some (.jarr l) => l.length != 3
  | _ => true

/-- `String(x)` / template-literal interpolation of a JavaScript value
(integer number formatting is exact; non-integer and array formatting is
approximated — no claim depends on it). -/
def jToString : J → String
  | .jnull => "null"
  | .jbool b => cond b "true" "false"
  | .jnum q => if q.den == 1 then toString q.num else toString q
  | .jstr s => s
  | .jarr _ => ""
  | .jobj _ => "[object Object]"

/-- Interpolation of a possibly-undefined value. -/
def jInterp : Option J → String
  | none => "undefined"
  | some j => jToString j

/-- The outcome `{ valid, errors }` of a validator. -/
structure ValidationOutcome where
  valid : Bool
  errors : List String

/-- The required-field pass shared by both validators: one pushed message per
required field that is `undefined` or `''`, with the designated
value-may-be-null field exempted by an (unreachable) null check, exactly as
in the source. -/
def requiredFieldErrors (required : List String) (nullableField : String)
    (row : Row) : List String :=
  required.filterMap (fun field =>
    if isMissingJ (row field) then
      if field == nullableField && isNullJ (row field) then none
      else some ("Missing required field: " ++ field)
    else none)

/-- `validateTradeFact(row)`: required fields, then enumeration and
ISO3-length checks, in source order. -/
def validateTradeFact (row : Row) : ValidationOutcome :=
  let errors :=
    requiredFieldErrors TRADE_FACT_REQUIRED "value_usd" row
    ++ (if truthyJ (row "frequency")
          && !strIncludes VALID_FREQUENCIES (row "frequency") then
          ["Invalid frequency: " ++ jInterp (row "frequency")] else [])
    ++ (if truthyJ (row "flow") && !strIncludes VALID_FLOWS (row "flow") then
          ["Invalid flow: " ++ jInterp (row "flow")] else [])
    ++ (if truthyJ (row "product_level")
          && !strIncludes VALID_PRODUCT_LEVELS (row "product_level") then
          ["Invalid product_level: " ++ jInterp (row "product_level")] else [])
    ++ (if truthyJ (row "reporter_iso3") && lengthIsNot3 (row "reporter_iso3") then
          ["reporter_iso3 must be 3 chars: " ++ jInterp (row "reporter_iso3")]
        else [])
    ++ (if truthyJ (row "partner_iso3") && lengthIsNot3 (row "partner_iso3") then
          ["partner_iso3 must be 3 chars: " ++ jInterp (row "partner_iso3")]
        else [])
  ⟨errors.length == 0, errors⟩

/-- `validateMacroFact(row)`: required fields, then the ISO3-length check. -/
def validateMacroFact (row : Row) : ValidationOutcome :=
  let errors :=
    requiredFieldErrors MACRO_FACT_REQUIRED "value" row
    ++ (if truthyJ (row "country_iso3") && lengthIsNot3 (row "country_iso3") then
          ["country_iso3 must be 3 chars: " ++ jInterp (row "country_iso3")]
        else [])
  ⟨errors.length == 0, errors⟩

/-! ### Validator claim theorems -/

/-- A fully-populated `trade_fact` row whose `value_usd` is `null`. -/
def tradeRowNullValue : Row := fun f =>
  if f = "date" then some (.jstr "2020") else
  if f = "frequency" then some (.jstr "A") else
  if f = "reporter_iso3" then some (.jstr "IND") else
  if f = "partner_iso3" then some (.jstr "CHN") else
  if f = "flow" then some (.jstr "EXPORT") else
  if f = "product_level" then some (.jstr "TOTAL") else
  if f = "product_code" then some (.jstr "TOTAL") else
  if f = "value_usd" then some .jnull else
  if f = "source_id" then some (.jstr "wits:trn") else
  if f = "retrieval_ts" then some (.jstr "2025-01-01T00:00:00.000Z") else
  if f = "request_fingerprint" then some (.jstr "https://wits.example/q") else
  none

/-- A fully-populated `macro_fact` row whose `value` is `null`. -/
def macroRowNullValue : Row := fun f =>
  if f = "date" then some (.jstr "2020") else
  if f = "country_iso3" then some (.jstr "IND") else
  if f = "indicator_code" then some (.jstr "NY.GDP.MKTP.CD") else
  if f = "indicator_name" then some (.jstr "GDP (current USD)") else
  if f = "value" then some .jnull else
  if f = "unit" then some (.jstr "USD") else
  if f = "source_id" then some (.jstr "worldbank") else
  if f = "retrieval_ts" then some (.jstr "2025-01-01T00:00:00.000Z") else
  if f = "request_fingerprint" then some (.jstr "https://wb.example/q") else
  none

/-- A nonempty list's length never `==` 0. -/
theorem length_beq_zero_eq_false_of_mem {α : Type} {a : α} {l : List α}
    (h : a ∈ l) : (l.length == 0) = false := by
  cases l with
  | nil => cases h
  | cons x xs => rfl

/-- C6: a record whose designated value field is `null` is valid (for both
schemas), while any record missing `source_id` is invalid and its reported
violation reason names the `source_id` field. -/
theorem validator_null_value_vs_missing_source_id :
    (validateTradeFact tradeRowNullValue).valid = true ∧
    (validateMacroFact macroRowNullValue).valid = true ∧
    (∀ row : Row, row "source_id" = none →
      (validateTradeFact row).valid = false ∧
      "Missing required field: source_id" ∈ (validateTradeFact row).errors) ∧
    (∀ row : Row, row "source_id" = none →
      (validateMacroFact row).valid = false ∧
      "Missing required field: source_id" ∈ (validateMacroFact row).errors) := by
  refine ⟨by decide, by decide, ?_, ?_⟩
  · intro row h
    have hmem : "Missing required field: source_id"
        ∈ requiredFieldErrors TRADE_FACT_REQUIRED "value_usd" row := by
      refine List.mem_filterMap.mpr ⟨"source_id", by decide, ?_⟩
      rw [h]
      rfl
    have hmem2 : "Missing required field: source_id"
        ∈ (validateTradeFact row).errors := by
      unfold validateTradeFact
      simp [hmem]
    exact ⟨length_beq_zero_eq_false_of_mem hmem2, hmem2⟩
  · intro row h
    have hmem : "Missing required field: source_id"
        ∈ requiredFieldErrors MACRO_FACT_REQUIRED "value" row := by
      refine List.mem_filterMap.mpr ⟨"source_id", by decide, ?_⟩
      rw [h]
      rfl
    have hmem2 : "Missing required field: source_id"
        ∈ (validateMacroFact row).errors := by
      unfold validateMacroFact
      simp [hmem]
    exact ⟨length_beq_zero_eq_false_of_mem hmem2, hmem2⟩

/-- C6 (witness): the universally-quantified parts applied to the concrete
trade row with its `source_id` deleted. -/
theorem validator_missing_source_id_witness :
    (fun f => if f = "source_id" then none else tradeRowNullValue f) "source_id"
        = (none : Option J) ∧
    (validateTradeFact
        (fun f => if f = "source_id" then none else tradeRowNullValue f)).valid
      = false ∧
    "Missing required field: source_id" ∈ (validateTradeFact
        (fun f => if f = "source_id" then none else tradeRowNullValue f)).errors :=
  ⟨rfl,
    (validator_null_value_vs_missing_source_id.2.2.1
      (fun f => if f = "source_id" then none else tradeRowNullValue f) rfl).1,
    (validator_null_value_vs_missing_source_id.2.2.1
      (fun f => if f = "source_id" then none else tradeRowNullValue f) rfl).2⟩

/-! ## Forecast Engine (`assets/workers/models.js`)

Series are `List (Option ℚ)`: `none` is a `null` observation. -/

/-- The valid period-over-period-by-season differences
`values[i] - values[i - seasonPeriod]` for `i = seasonPeriod .. n-1`
(skipping any pair with a `null`). -/
def seasonDiffs (values : List (Option ℚ)) (seasonPeriod : Nat) : List ℚ :=
  (List.range (values.length - seasonPeriod)).filterMap (fun j =>
    match values.getD (seasonPeriod + j) none, values.getD j none with
    | some a, some b => some (a - b)
    | _, _ => none)

/-- `avgTrend`: the mean of the valid differences, `0` when there are none. -/
def avgSeasonTrend (values : List (Option ℚ)) (seasonPeriod : Nat) : ℚ :=
  let diffs := seasonDiffs values seasonPeriod
  if diffs.length > 0 then diffs.sum / (diffs.length : ℚ) else 0

/-- `seasonalNaive(values, seasonPeriod, horizon)`. For each horizon step
`h = h0 + 1` the base index is `n - seasonPeriod + ((h-1) % seasonPeriod)`;
with `seasonPeriod = 0` the JavaScript index is `NaN`, failing the bounds
check and falling back to `values[n-1]`. -/
def seasonalNaive (values : List (Option ℚ)) (seasonPeriod horizon : Nat) :
    List (Option ℚ) :=
  let n := values.length
  if n < seasonPeriod + 1 then List.replicate horizon none
  else
    let avgTrend := avgSeasonTrend values seasonPeriod
    (List.range horizon).map (fun h0 =>
      let h := h0 + 1
      let sIdx := n - seasonPeriod + (h0 % seasonPeriod)
      let base :=
        if seasonPeriod == 0 then values.getD (n - 1) none
        else if sIdx < n then values.getD sIdx none else values.getD (n - 1) none
      match base with
      | some b => some (b + avgTrend * ((h + seasonPeriod - 1) / seasonPeriod : Nat))
      | none => none)

/-- Holt-Winters smoothing state `(level, trend, seasonal[])`. -/
structure HWState where
  level : ℚ
  trend : ℚ
  seasonal : List ℚ
deriving DecidableEq

/-- Holt-Winters initialization: level = mean of the first season
(nulls as 0), trend = scaled difference of the first two season means,
seasonal offsets = first-season deviations (zero vector when
`seasonPeriod ≤ 1`). -/
def hwInit (values : List (Option ℚ)) (s : Nat) : HWState :=
  let a1 := ((values.take s).map (fun v => v.getD 0)).sum / (s : ℚ)
  let a2 := (((values.drop s).take s).map (fun v => v.getD 0)).sum / (s : ℚ)
  let trend := (a2 - a1) / (s : ℚ)
  let seasonal :=
    if s > 1 then (List.range s).map (fun i => (values.getD i none).getD 0 - a1)
    else List.replicate s 0
  ⟨a1, trend, seasonal⟩

/-- One observed step of the Holt-Winters recurrence (`null` observations
are skipped without touching the state). -/
def hwStep (alpha beta gamma : ℚ) (s : Nat) (st : HWState) (t : Nat)
    (v : Option ℚ) : HWState :=
  match v with
  | none => st
  | some x =>
    let sIdx := t % s
    let pL := st.level
    let seasVal := st.seasonal.getD sIdx 0
    let level := alpha * (x - seasVal) + (1 - alpha) * (st.level + st.trend)
    let trend := beta * (level - pL) + (1 - beta) * st.trend
    let seasonal :=
      if s > 1 then st.seasonal.set sIdx (gamma * (x - level) + (1 - gamma) * seasVal)
      else st.seasonal
    ⟨level, trend, seasonal⟩

/-- The full smoothing pass over the history. -/
def hwSmooth (values : List (Option ℚ)) (alpha beta gamma : ℚ) (s : Nat) :
    HWState :=
  values.enum.foldl (fun st p => hwStep alpha beta gamma s st p.1 p.2)
    (hwInit values s)

/-- `holtWinters(values, { alpha, beta, gamma, seasonPeriod, horizon })`:
delegates to `seasonalNaive` when the history is shorter than two seasons,
otherwise forecasts `level + trend * h + seasonal[(n + h - 1) % s]`
(seasonal term only when `s > 1`). -/
def holtWinters (values : List (Option ℚ)) (alpha beta gamma : ℚ)
    (seasonPeriod horizon : Nat) : List (Option ℚ) :=
  let n := values.length
  if n < 2 * seasonPeriod then seasonalNaive values seasonPeriod horizon
  else
    let st := hwSmooth values alpha beta gamma seasonPeriod
    (List.range horizon).map (fun h0 =>
      let h : Nat := h0 + 1
      some (st.level + st.trend * (h : ℚ)
        + (if seasonPeriod > 1 then st.seasonal.getD ((n + h - 1) % seasonPeriod) 0
           else 0)))

/-- `calcRMSE(a, p)` with the final square root abstracted as `sq` (`ℚ` has
no square root; no claim below depends on its value): `sqrt` of the mean of
squared differences over index pairs where both entries are non-null. -/
def calcRMSE (sq : ℚ → ℚ) (a p : List (Option ℚ)) : Option ℚ :=
  let diffs := (List.range a.length).filterMap (fun i =>
    match a.getD i none, p.getD i none with
    | some x, some y => some (x - y)
    | _, _ => none)
  if diffs.length > 0 then
    some (sq ((diffs.map (fun d => d ^ 2)).sum / (diffs.length : ℚ)))
  else none

/-- `calcMAPE(a, p)`: mean of `|a - p| / a` (× 100) over index pairs where
the actual is non-null and non-zero and the prediction non-null. -/
def calcMAPE (a p : List (Option ℚ)) : Option ℚ :=
  let terms := (List.range a.length).filterMap (fun i =>
    match a.getD i none, p.getD i none with
    | some x, some y => if x ≠ 0 then some (|(x - y) / x|) else none
    | _, _ => none)
  if terms.length > 0 then some (terms.sum / (terms.length : ℚ) * 100)
  else none

/-- The `{ rmse, mape, residuals }` triple returned by `rollingEval`. -/
structure RollResult where
  rmse : Option ℚ
  mape : Option ℚ
  residuals : List ℚ
deriving DecidableEq

/-- `rollingEval(values, testSize, fcFn)`: null-filter, require
`clean.length ≥ testSize + 3` (else null metrics and empty residuals),
train on the prefix, forecast, score. -/
def rollingEval (sq : ℚ → ℚ) (values : List (Option ℚ)) (testSize : Nat)
    (fcFn : List (Option ℚ) → List (Option ℚ)) : RollResult :=
  let clean : List ℚ := values.filterMap id
  if clean.length < testSize + 3 then ⟨none, none, []⟩
  else
    let train := clean.take (clean.length - testSize)
    let test := clean.drop (clean.length - testSize)
    let pred := fcFn (train.map some)
    ⟨calcRMSE sq (test.map some) pred, calcMAPE (test.map some) pred,
      test.enum.map (fun p => p.2 - ((pred.getD p.1 none).getD 0))⟩

/-! ### Forecast Engine claim theorems -/

/-- C7: with history no longer than the season length the seasonal-naive
forecaster returns a fully-null vector of the requested horizon; otherwise
(for a positive season length) each forecast step `h = h0 + 1` is the
same-season base value selected cyclically from the last season of history
(`values[n - s + ((h-1) mod s)]`, in range, so the out-of-range fallback
never fires) plus the mean seasonal difference times `ceil(h / s)`
(`null` base propagates to a `null` forecast entry). -/
theorem seasonalNaive_guard_and_formula :
    (∀ (values : List (Option ℚ)) (s horizon : Nat),
      values.length ≤ s →
        seasonalNaive values s horizon = List.replicate horizon none) ∧
    (∀ (values : List (Option ℚ)) (s horizon h0 : Nat),
      1 ≤ s → s < values.length → h0 < horizon →
        (seasonalNaive values s horizon).getD h0 none =
          (values.getD (values.length - s + (h0 % s)) none).map
            (fun b => b + avgSeasonTrend values s * (((h0 + s) / s : Nat) : ℚ))) := by
  constructor
  · intro values s horizon hle
    unfold seasonalNaive
    rw [if_pos (by omega)]
  · intro values s horizon h0 hs hlt hh
    unfold seasonalNaive
    rw [if_neg (by omega)]
    rw [List.getD_eq_getElem?_getD, List.getElem?_map, List.getElem?_range hh]
    have hmod : h0 % s < s := Nat.mod_lt h0 (by omega)
    have hidx : values.length - s + (h0 % s) < values.length := by omega
    have hs0 : (s == 0) = false := by simp; omega
    simp only [hs0, Bool.false_eq_true, if_false]
    simp only [Option.map_some', Option.getD_some]
    rw [if_pos hidx]
    have hceil : h0 + 1 + s - 1 = h0 + s := by omega
    rw [hceil]
    cases values.getD (values.length - s + (h0 % s)) none with
    | none => rfl
    | some b => rfl

/-- C7 (witness): both conjuncts at concrete inputs — a 1-point history with
season length 2 gives `[null, null, null]`; a 3-point history with season
length 1 satisfies the closed-form formula at forecast step 1. -/
theorem seasonalNaive_guard_and_formula_witness :
    ([some (5 : ℚ)].length ≤ 2 ∧
      seasonalNaive [some (5 : ℚ)] 2 3 = List.replicate 3 none) ∧
    (1 ≤ 1 ∧ 1 < [some (1 : ℚ), some 2, some 3].length ∧ 0 < 2 ∧
      (seasonalNaive [some (1 : ℚ), some 2, some 3] 1 2).getD 0 none =
        ([some (1 : ℚ), some 2, some 3].getD
            ([some (1 : ℚ), some 2, some 3].length - 1 + (0 % 1)) none).map
          (fun b => b + avgSeasonTrend [some (1 : ℚ), some 2, some 3] 1
            * (((0 + 1) / 1 : Nat) : ℚ))) :=
  ⟨⟨by decide, seasonalNaive_guard_and_formula.1 [some 5] 2 3 (by decide)⟩,
   ⟨by decide, by decide, by decide,
     seasonalNaive_guard_and_formula.2 [some 1, some 2, some 3] 1 2 0
       (by decide) (by decide) (by decide)⟩⟩

/-- The series `[100, 110, 121, 133.1]` of the random-walk-with-drift check. -/
def rwdSeries : List (Option ℚ) := [some 100, some 110, some 121, some (1331/10)]

/-- C8: Holt-Winters on `[100, 110, 121, 133.1]` with `α = 1, β = 0, γ = 0`
and season length 1 degenerates to a random walk with drift: the smoothed
level ends at the last observation `133.1`, the trend never moves from its
initialized value `10 = mean(second season) - mean(first season)`, and every
forecast step `h` is `133.1 + 10 · h`. -/
theorem holtWinters_random_walk_with_drift :
    (hwInit rwdSeries 1).trend = 10 ∧
    (hwSmooth rwdSeries 1 0 0 1).level = 1331 / 10 ∧
    (hwSmooth rwdSeries 1 0 0 1).trend = (hwInit rwdSeries 1).trend ∧
    ∀ horizon, holtWinters rwdSeries 1 0 0 1 horizon =
      (List.range horizon).map
        (fun h0 => some ((1331 / 10 : ℚ) + 10 * (((h0 + 1 : Nat) : ℚ)))) := by
  have hi : (hwInit rwdSeries 1).trend = 10 := by
    norm_num [hwInit, rwdSeries]
  have hl : (hwSmooth rwdSeries 1 0 0 1).level = 1331 / 10 := by
    norm_num [hwSmooth, hwInit, hwStep, rwdSeries, List.enum, List.enumFrom]
  have ht : (hwSmooth rwdSeries 1 0 0 1).trend = 10 := by
    norm_num [hwSmooth, hwInit, hwStep, rwdSeries, List.enum, List.enumFrom]
  refine ⟨hi, hl, by rw [ht, hi], ?_⟩
  intro horizon
  unfold holtWinters
  rw [if_neg (by decide)]
  refine List.map_congr_left (fun h0 _ => ?_)
  simp only [hl, ht]
  norm_num

/-- C9: rolling-origin evaluation of any series whose null-filtered length is
below `testSize + 3` returns null RMSE, null MAPE and an empty residual list
(and, being a total function, never throws), for every forecast function and
abstracted square root. -/
theorem rollingEval_short_series_null_metrics (sq : ℚ → ℚ)
    (values : List (Option ℚ)) (testSize : Nat)
    (fcFn : List (Option ℚ) → List (Option ℚ))
    (h : (values.filterMap id).length < testSize + 3) :
    rollingEval sq values testSize fcFn = ⟨none, none, []⟩ := by
  unfold rollingEval
  rw [if_pos h]

/-- C9 (witness): a 3-point series with one null against `testSize = 1`. -/
theorem rollingEval_short_series_null_metrics_witness :
    (([some (1 : ℚ), some 2, none].filterMap id).length < 1 + 3) ∧
    rollingEval id [some (1 : ℚ), some 2, none] 1
        (fun t => seasonalNaive t 1 1) = ⟨none, none, []⟩ :=
  ⟨by decide, rollingEval_short_series_null_metrics id [some 1, some 2, none] 1
    (fun t => seasonalNaive t 1 1) (by decide)⟩

/-! ## WITS normalisation (`assets/services/wits.js`) -/

/-- `extractObservations(data)`: a flat array is returned as-is; an
SDMX-JSON `dataSets` shape yields `Object.values` of the first data set's
`observations` (or of each series' `observations`); otherwise the first of
the keys `Dataset`/`data`/`wits`/`Data` holding an array wins; anything else
gives `[]`. When the `dataSets` branch matches but the first data set has
neither `observations` nor `series`, control falls through to the key
probing, as in the source. -/
def extractObservations (data : J) : List J :=
  match data with
  | .jarr l => l
  | _ =>
    let sdmx : Option (List J) :=
      if truthyJ (some data) then
        match jGet data "dataSets" with
        | some (.jarr dsList) =>
          match dsList.head? with
          | some ds =>
            if truthyJ (some ds) && truthyJ (jGet ds "observations") then
              some (jObjectValues ((jGet ds "observations").getD .jnull))
            else if truthyJ (some ds) && truthyJ (jGet ds "series") then
              some (((jObjectValues ((jGet ds "series").getD .jnull)).map
                (fun s =>
                  if truthyJ (jGet s "observations") then
                    jObjectValues ((jGet s "observations").getD .jnull)
                  else [])).flatten)
            else none
          | none => none
        | _ => none
      else none
    match sdmx with
    | some l => l
    | none =>
      if truthyJ (some data) && isObjLike data then
        match ["Dataset", "data", "wits", "Data"].findSome? (fun k =>
          match jGet data k with
          | some (.jarr l) => some l
          | _ => none) with
        | some l => l
        | none => []
      else []

/-- `mapFlow(code)`: uppercase, then substring/exact matching to
`EXPORT` / `IMPORT`, defaulting to the uppercased code itself. -/
def mapFlow (code : J) : String :=
  let c := jsToUpperCase (jToString code)
  if jsIncludes c "EXPORT" || c == "X" || c == "2" then "EXPORT"
  else if jsIncludes c "IMPORT" || c == "M" || c == "1" then "IMPORT"
  else c

/-- One normalised `trade_fact` row as built by `normaliseWitsResponse`
(fields hold JavaScript values; `value_usd` is a number or `null`). -/
structure WitsRow where
  date : J
  frequency : J
  reporter_iso3 : J
  partner_iso3 : J
  flow : J
  product_level : J
  product_code : J
  product_name : J
  value_usd : J
  unit : J
  source_id : J
  retrieval_ts : J
  request_fingerprint : J

/-- `obs.ProductCode === 'TOTAL' || obs.ProductCode === '999999'`. -/
def isTotalProductCode (v : Option J) : Bool :=
  match v with
  | some (.jstr s) => s == "TOTAL" || s == "999999"
  | _ => false

/-- The row built for one observation (`ts` is the ISO timestamp the source
takes from the clock at entry). `value_usd` is
`parseFloat(obs.Value) || null`: a parse failure (`NaN`) or an exact-zero
parse is coerced to `null`. -/
def mkWitsRow (ts datasource url : String) (obs : J) : WitsRow where
  date := jsOrJ (jGet obs "year") (jsOrJ (jGet obs "TimePeriod") (.jstr ""))
  frequency := .jstr "A"
  reporter_iso3 :=
    jsOrJ (jGet obs "ReporterISO3") (jsOrJ (jGet obs "reporter") (.jstr ""))
  partner_iso3 :=
    jsOrJ (jGet obs "PartnerISO3") (jsOrJ (jGet obs "partner") (.jstr ""))
  flow := .jstr (mapFlow
    (jsOrJ (jGet obs "TradeFlowCode") (jsOrJ (jGet obs "Indicator") (.jstr ""))))
  product_level :=
    if isTotalProductCode (jGet obs "ProductCode") then .jstr "TOTAL"
    else .jstr "GROUP"
  product_code := jsOrJ (jGet obs "ProductCode") (.jstr "TOTAL")
  product_name :=
    jsOrJ (jGet obs "ProductDescription") (jsOrJ (jGet obs "Product") (.jstr ""))
  value_usd :=
    match jsParseFloatJ (jGet obs "Value") with
    | some q => if q == 0 then .jnull else .jnum q
    | none => .jnull
  unit := .jstr "USD"
  source_id := .jstr ("wits:" ++ datasource)
  retrieval_ts := .jstr ts
  request_fingerprint := .jstr url

/-- `normaliseWitsResponse(rawData, datasource, url)`: falsy input gives no
rows, otherwise one row per extracted observation. -/
def normaliseWitsResponse (ts : String) (rawData : J) (datasource url : String) :
    List WitsRow :=
  if !truthyJ (some rawData) then []
  else (extractObservations rawData).map (mkWitsRow ts datasource url)

/-- C10: any raw observation whose `Value` field parses to exactly `0`, or
fails to parse (`NaN`), is normalised to a row with `value_usd = null` —
a genuine zero trade value is coerced to missing, not kept as the number 0. -/
theorem normaliseWits_zero_value_coerced_to_null
    (fields : List (String × J)) (ts datasource url : String)
    (h : jsParseFloatJ (jGet (.jobj fields) "Value") = some 0 ∨
         jsParseFloatJ (jGet (.jobj fields) "Value") = none) :
    (normaliseWitsResponse ts (.jarr [.jobj fields]) datasource url).map
        (fun r => r.value_usd) = [.jnull] := by
  have hrow : (mkWitsRow ts datasource url (.jobj fields)).value_usd = .jnull := by
    unfold mkWitsRow
    rcases h with h | h
    · rw [h]
      simp
    · rw [h]
  unfold normaliseWitsResponse extractObservations
  simp only [truthyJ, Bool.not_true, Bool.false_eq_true, if_false, List.map_map,
    List.map_cons, List.map_nil, Function.comp]
  rw [hrow]

/-- C10 (witness): an observation whose `Value` is the number `0`. -/
theorem normaliseWits_zero_value_coerced_to_null_witness :
    (jsParseFloatJ (jGet (.jobj [("Value", .jnum 0)]) "Value") = some 0 ∨
      jsParseFloatJ (jGet (.jobj [("Value", .jnum 0)]) "Value") = none) ∧
    (normaliseWitsResponse "2025-01-01T00:00:00.000Z"
        (.jarr [.jobj [("Value", .jnum 0)]]) "trn" "https://wits.example/q").map
      (fun r => r.value_usd) = [.jnull] :=
  ⟨Or.inl rfl,
    normaliseWits_zero_value_coerced_to_null [("Value", .jnum 0)]
      "2025-01-01T00:00:00.000Z" "trn" "https://wits.example/q"
      (Or.inl rfl)⟩

end IndoChina
